import Mathlib

/-!
Verification of the student-portal backend (unit-allocation workflow and
document-upload subsystem). The definitions below are a shallow embedding of
`src/index.js` and the table definitions in `src/migrations/*.sql`: SQL tables
become lists of row structures, each HTTP handler becomes a pure function from
a request and a database state to a response and a new state, and the
environment-dependent parts of the file-upload path (remote storage
configured/failing, local write failing, database insert outcome) are passed
in explicitly as an environment record.
-/

namespace StudentPortal

/-- Row of the `students` table (the fields used by the modelled handlers). -/
structure Student where
  id : Nat
  registration_number : String
  name : String
deriving Repr, DecidableEq

/-- Row of the `units` table (migration in `src/unnamed/part_002`):
`id`, `unit_name`, `unit_code` (unique). -/
structure CourseUnit where
  id : Nat
  unit_name : String
  unit_code : String
deriving Repr, DecidableEq

/-- Row of the `allocated_units` table
(migration in `src/migrations/create_password_trigger.sql`). -/
structure AllocatedUnit where
  id : Nat
  student_id : Nat
  unit_id : Nat
  semester : Nat
  academic_year : String
  status : String
  notes : Option String
deriving Repr, DecidableEq

/-- Row of the `registered_units` table as used by `src/index.js`
(`student_id`, `unit_name`, `unit_code`, `status`). -/
structure RegisteredUnit where
  id : Nat
  student_id : Nat
  unit_name : String
  unit_code : String
  status : String
deriving Repr, DecidableEq

/-- Row of the `student_documents` table
(migration in `src/migrations/create_student_documents_table.sql`).
`uploaded_at` is modelled as a Nat timestamp. -/
structure StudentDocument where
  id : Nat
  registration_number : String
  document_type : String
  file_url : String
  file_name : String
  file_size : Nat
  uploaded_at : Nat
deriving Repr, DecidableEq

/-- Row of the `fees` table as read by the exam-card endpoint
(`fee_balance` per `student_id`). -/
structure FeeRecord where
  student_id : Nat
  fee_balance : Int
deriving Repr, DecidableEq

/-- The relational database state: one list per table, plus a fresh-id
counter standing in for the id generator of the database. -/
structure DB where
  students : List Student
  units : List CourseUnit
  allocated_units : List AllocatedUnit
  registered_units : List RegisteredUnit
  student_documents : List StudentDocument
  fees : List FeeRecord
  nextId : Nat
deriving Repr, DecidableEq

/-- `SELECT ... FROM students WHERE registration_number = $1`, taking the
first returned row as the source does with `rows[0]`. -/
def lookupStudentByReg (db : DB) (regNumber : String) : Option Student :=
  (db.students.filter (fun s => s.registration_number == regNumber)).head?

/-- `SELECT ... FROM students WHERE id = $1`, first row. -/
def lookupStudentById (db : DB) (sid : Nat) : Option Student :=
  (db.students.filter (fun s => s.id == sid)).head?

/-- `SELECT id, unit_name, unit_code FROM units WHERE id = $1`, first row. -/
def findUnitById (db : DB) (uid : Nat) : Option CourseUnit :=
  (db.units.filter (fun u => u.id == uid)).head?

/-! ## Unit allocation workflow
Embedding of `POST /students/registration/:regNumber/allocate-units`
(src/index.js lines 3136-3261). -/

/-- One element of the `allocated_units` response array: the inserted row
spread together with `unit_name` and `unit_code` of the unit. -/
structure AllocatedRowOut where
  row : AllocatedUnit
  unit_name : String
  unit_code : String
deriving Repr, DecidableEq

/-- The `summary` object of the allocation response. -/
structure AllocationSummary where
  total_requested : Nat
  successfully_allocated : Nat
  errors : Nat
deriving Repr, DecidableEq

/-- The `existingRows.length > 0` check: a non-cancelled allocation already
exists for (student, unit, semester, academic_year). -/
def activeAllocationExists (db : DB) (sid uid sem : Nat) (ay : String) : Bool :=
  db.allocated_units.any (fun au =>
    au.student_id == sid && au.unit_id == uid && au.semester == sem &&
    au.academic_year == ay && au.status != "cancelled")

/-- The database-level constraint `unique_student_unit_semester UNIQUE
(student_id, unit_id, semester, academic_year)` from the `allocated_units`
migration: the INSERT raises when any row (cancelled or not) already holds
the key. -/
def uniqueKeyTaken (db : DB) (sid uid sem : Nat) (ay : String) : Bool :=
  db.allocated_units.any (fun au =>
    au.student_id == sid && au.unit_id == uid && au.semester == sem &&
    au.academic_year == ay)

/-- The body of one iteration of the per-unit loop inside the allocation
transaction: verify the unit exists, check the non-cancelled-duplicate rule,
then INSERT (which can still raise the `unique_student_unit_semester`
violation, caught by the per-unit try/catch). Returns the updated state, an
optional success entry and an optional error entry. -/
def allocateOne (sid sem : Nat) (ay : String) (notes : Option String) (db : DB)
    (uid : Nat) : DB × Option AllocatedRowOut × Option String :=
  match findUnitById db uid with
  | none => (db, none, some ("Unit with ID " ++ toString uid ++ " not found"))
  | some u =>
    if activeAllocationExists db sid uid sem ay then
      (db, none, some ("Unit " ++ u.unit_code ++ " already allocated for this semester"))
    else if uniqueKeyTaken db sid uid sem ay then
      (db, none, some ("Failed to allocate unit " ++ toString uid ++
        ": duplicate key value violates unique constraint unique_student_unit_semester"))
    else
      let row : AllocatedUnit :=
        { id := db.nextId, student_id := sid, unit_id := uid, semester := sem,
          academic_year := ay, status := "allocated", notes := notes }
      ({ db with allocated_units := db.allocated_units ++ [row], nextId := db.nextId + 1 },
       some { row := row, unit_name := u.unit_name, unit_code := u.unit_code }, none)

/-- The `for (const unit_id of unit_ids)` loop, sequential and
order-preserving: outputs of earlier ids precede outputs of later ids. -/
def allocateLoop (sid sem : Nat) (ay : String) (notes : Option String) :
    List Nat → DB → DB × List AllocatedRowOut × List String
  | [], db => (db, [], [])
  | uid :: rest, db =>
    let step := allocateOne sid sem ay notes db uid
    let next := allocateLoop sid sem ay notes rest step.1
    (next.1, step.2.1.toList ++ next.2.1, step.2.2.toList ++ next.2.2)

/-- Responses of the allocation endpoint. -/
inductive AllocateResponse where
  | studentNotFound
  | badRequest
  | ok (allocated_units : List AllocatedRowOut) (errors : List String)
       (summary : AllocationSummary)
deriving Repr, DecidableEq

/-- `POST /students/registration/:regNumber/allocate-units`: resolve the
student by registration number, validate `unit_ids`, re-verify the student by
id, then run the per-unit loop in one transaction and report partial
success. -/
def allocateUnitsByReg (regNumber : String) (unit_ids : List Nat) (semester : Nat)
    (academic_year : String) (notes : Option String) (db : DB) :
    AllocateResponse × DB :=
  match lookupStudentByReg db regNumber with
  | none => (.studentNotFound, db)
  | some s =>
    if unit_ids.isEmpty then (.badRequest, db)
    else
      match lookupStudentById db s.id with
      | none => (.studentNotFound, db)
      | some _ =>
        let r := allocateLoop s.id semester academic_year notes unit_ids db
        (.ok r.2.1 r.2.2
          { total_requested := unit_ids.length,
            successfully_allocated := r.2.1.length,
            errors := r.2.2.length }, r.1)

/-! ## Registering an allocated unit
Embedding of `POST /students/registration/:regNumber/register-allocated-unit`
(src/index.js lines 3587-3677) and of the legacy `POST /units/register`
(lines 1654-1732). -/

/-- The join `allocated_units au JOIN units u ON au.unit_id = u.id WHERE
au.id = $1 AND au.student_id = $2 AND au.status = allocated`. -/
def allocatedJoinRows (db : DB) (auid sid : Nat) :
    List (AllocatedUnit × CourseUnit) :=
  (db.allocated_units.filter (fun au =>
      au.id == auid && au.student_id == sid && au.status == "allocated")).flatMap
    (fun au => (db.units.filter (fun u => u.id == au.unit_id)).map (fun u => (au, u)))

/-- Responses of the registration endpoints. -/
inductive RegisterResponse where
  | badRequest
  | studentNotFound
  | notEligible
  | alreadyRegistered
  | ok (ru : RegisteredUnit)
  | serverError
deriving Repr, DecidableEq

/-- `POST /students/registration/:regNumber/register-allocated-unit`. The
`insertFails` flag models the INSERT inside `sql.begin` raising; the
transaction then rolls back both writes and the handler answers 500. -/
def registerAllocatedUnit (insertFails : Bool) (regNumber : String)
    (allocated_unit_id : Option Nat) (db : DB) : RegisterResponse × DB :=
  match allocated_unit_id with
  | none => (.badRequest, db)
  | some auid =>
    match lookupStudentByReg db regNumber with
    | none => (.studentNotFound, db)
    | some s =>
      match (allocatedJoinRows db auid s.id).head? with
      | none => (.notEligible, db)
      | some (_, u) =>
        if db.registered_units.any (fun ru =>
            ru.student_id == s.id && ru.unit_code == u.unit_code) then
          (.alreadyRegistered, db)
        else if insertFails then
          (.serverError, db)
        else
          let ru : RegisteredUnit :=
            { id := db.nextId, student_id := s.id, unit_name := u.unit_name,
              unit_code := u.unit_code, status := "registered" }
          (.ok ru,
           { db with
             allocated_units := db.allocated_units.map (fun a =>
               if a.id == auid then { a with status := "registered" } else a),
             registered_units := db.registered_units ++ [ru],
             nextId := db.nextId + 1 })

/-- Legacy `POST /units/register`: creates the unit on the fly when its code
is unknown, refuses a duplicate (student, unit_code) registration, otherwise
inserts a `registered_units` row with the caller-supplied status (default
`active`). It never touches `allocated_units`. -/
def legacyRegisterUnit (student_reg unit_name unit_code status : String)
    (db : DB) : RegisterResponse × DB :=
  if student_reg == "" || unit_name == "" || unit_code == "" then (.badRequest, db)
  else
    match lookupStudentByReg db student_reg with
    | none => (.studentNotFound, db)
    | some s =>
      let db1 :=
        if (db.units.filter (fun u => u.unit_code == unit_code)).isEmpty then
          { db with
            units := db.units ++
              [{ id := db.nextId, unit_name := unit_name, unit_code := unit_code }],
            nextId := db.nextId + 1 }
        else db
      if db1.registered_units.any (fun ru =>
          ru.student_id == s.id && ru.unit_code == unit_code) then
        (.alreadyRegistered, db1)
      else
        let ru : RegisteredUnit :=
          { id := db1.nextId, student_id := s.id, unit_name := unit_name,
            unit_code := unit_code, status := status }
        (.ok ru,
         { db1 with registered_units := db1.registered_units ++ [ru],
                    nextId := db1.nextId + 1 })

/-- The AllocatedUnit/RegisteredUnit state-machine invariant: every
`registered_units` row in status `registered` is backed by an
`allocated_units` row in status `registered` for the same student and unit
(linked through the `units` catalog by unit_code), and conversely. -/
def pairInvariant (db : DB) : Prop :=
  (∀ ru ∈ db.registered_units, ru.status = "registered" →
    ∃ au ∈ db.allocated_units, ∃ u ∈ db.units,
      au.status = "registered" ∧ au.student_id = ru.student_id ∧
      au.unit_id = u.id ∧ u.unit_code = ru.unit_code) ∧
  (∀ au ∈ db.allocated_units, au.status = "registered" →
    ∃ u ∈ db.units, ∃ ru ∈ db.registered_units,
      u.id = au.unit_id ∧ ru.student_id = au.student_id ∧
      ru.unit_code = u.unit_code ∧ ru.status = "registered")

instance (db : DB) : Decidable (pairInvariant db) := by
  unfold pairInvariant
  infer_instance

/-! ## Document upload subsystem
Embedding of `handleFileUpload` / `saveFileLocally` (src/index.js lines
1046-1215) and of the upload endpoint `POST /exam-card` (lines 1218-1306).
The environment record carries the outcomes of the external collaborators
(remote object storage, local filesystem, database insert) that the handler
branches on. -/

/-- The in-memory `File` value handed to the handler. -/
structure UploadedFile where
  name : String
  size : Nat
  mimeType : String
deriving Repr, DecidableEq

/-- Outcome of the `INSERT INTO student_documents ... RETURNING *` call:
it returns rows, returns zero rows, or raises. -/
inductive InsertOutcome where
  | ok
  | emptyRows
  | raises (msg : String)
deriving Repr, DecidableEq

/-- Environment of one `handleFileUpload` call. -/
structure UploadEnv where
  supabaseConfigured : Bool
  remoteFails : Bool
  localWriteFails : Bool
  insertOutcome : InsertOutcome
  cleanupFails : Bool
  now : Nat
deriving Repr, DecidableEq

/-- The `data` object of a successful upload response. -/
structure UploadData where
  id : Nat
  registrationNumber : String
  documentType : String
  fileUrl : String
  fileName : String
  fileSize : Nat
  uploadedAt : Nat
  storageMethod : String
deriving Repr, DecidableEq

/-- Observable effects of one `handleFileUpload` call: the database state,
the blob (storage method and key) left in durable storage, and whether the
post-insert-failure cleanup was attempted. -/
structure UploadEffects where
  db : DB
  storedBlob : Option (String × String)
  cleanupAttempted : Bool
deriving Repr, DecidableEq

/-- `file.name.split('.').pop()`. -/
def fileExtension (file : UploadedFile) : String :=
  (file.name.splitOn ".").getLastD ""

/-- The storage key
`documentType/registrationNumber_timestamp.extension` built at the top of
`handleFileUpload`. -/
def uploadKey (env : UploadEnv) (registrationNumber : String)
    (file : UploadedFile) (documentType : String) : String :=
  documentType ++ "/" ++ registrationNumber ++ "_" ++ toString env.now ++ "." ++
    fileExtension file

/-- The public URL returned by the remote storage client for a key
(opaque to the handler; modelled as a tagged string). -/
def supabasePublicUrl (fileName : String) : String :=
  "supabase://student-documents/" ++ fileName

/-- `handleFileUpload`: try the remote store when configured, fall back to
local disk when unconfigured or when the remote path raises, then insert the
`student_documents` row. Only the zero-rows insert outcome triggers the blob
cleanup; a raising insert propagates through the outer catch with no
cleanup. -/
def handleFileUpload (env : UploadEnv) (registrationNumber : String)
    (file : UploadedFile) (documentType : String) (db : DB) :
    Except String UploadData × UploadEffects :=
  let fileName := uploadKey env registrationNumber file documentType
  let stored : Except String (String × String) :=
    if env.supabaseConfigured && !env.remoteFails then
      .ok (supabasePublicUrl fileName, "supabase")
    else if env.localWriteFails then
      .error "Local storage failed: write error"
    else
      .ok ("/uploads/" ++ fileName, "local")
  match stored with
  | .error e => (.error e, { db := db, storedBlob := none, cleanupAttempted := false })
  | .ok (fileUrl, storageMethod) =>
    match env.insertOutcome with
    | .ok =>
      let row : StudentDocument :=
        { id := db.nextId, registration_number := registrationNumber,
          document_type := documentType, file_url := fileUrl,
          file_name := file.name, file_size := file.size, uploaded_at := env.now }
      (.ok { id := row.id, registrationNumber := registrationNumber,
             documentType := documentType, fileUrl := fileUrl,
             fileName := file.name, fileSize := file.size,
             uploadedAt := env.now, storageMethod := storageMethod },
       { db := { db with student_documents := db.student_documents ++ [row],
                         nextId := db.nextId + 1 },
         storedBlob := some (storageMethod, fileName), cleanupAttempted := false })
    | .emptyRows =>
      (.error "Database insertion failed",
       { db := db,
         storedBlob := if env.cleanupFails then some (storageMethod, fileName) else none,
         cleanupAttempted := true })
    | .raises msg =>
      (.error msg,
       { db := db, storedBlob := some (storageMethod, fileName),
         cleanupAttempted := false })

/-- Responses of the document upload endpoints. -/
inductive UploadResponse where
  | badRequest (error : String)
  | created (data : UploadData)
  | serverError (details : String)
deriving Repr, DecidableEq

/-- `POST /exam-card`: field validation (presence, 10 MiB maximum, 1 KiB
minimum) and delegation to `handleFileUpload` with the trimmed registration
number. No student lookup is performed. -/
def examCardUpload (env : UploadEnv) (registrationNumber : Option String)
    (file : Option UploadedFile) (db : DB) : UploadResponse × UploadEffects :=
  match registrationNumber with
  | none => (.badRequest "Registration number is required",
             { db := db, storedBlob := none, cleanupAttempted := false })
  | some reg =>
    if reg == "" then
      (.badRequest "Registration number is required",
       { db := db, storedBlob := none, cleanupAttempted := false })
    else
      match file with
      | none => (.badRequest "File is required",
                 { db := db, storedBlob := none, cleanupAttempted := false })
      | some f =>
        if f.size > 10 * 1024 * 1024 then
          (.badRequest "File size must be less than 10MB",
           { db := db, storedBlob := none, cleanupAttempted := false })
        else if f.size < 1024 then
          (.badRequest "File appears to be empty or too small",
           { db := db, storedBlob := none, cleanupAttempted := false })
        else
          match handleFileUpload env reg.trim f "exam-card" db with
          | (.ok data, eff) => (.created data, eff)
          | (.error e, eff) => (.serverError e, eff)

/-- `ORDER BY uploaded_at DESC` as a relation: `a` comes no later than `b`
in the output when `a` was uploaded no earlier than `b`. -/
def laterUploaded (a b : StudentDocument) : Prop :=
  b.uploaded_at ≤ a.uploaded_at

instance : DecidableRel laterUploaded := fun a b =>
  inferInstanceAs (Decidable (b.uploaded_at ≤ a.uploaded_at))

instance : IsTotal StudentDocument laterUploaded :=
  ⟨fun a b => Nat.le_total b.uploaded_at a.uploaded_at⟩

instance : IsTrans StudentDocument laterUploaded :=
  ⟨fun _ _ _ h1 h2 => Nat.le_trans h2 h1⟩

/-- `GET /documents/:registrationNumber`: all `student_documents` rows of the
registration number, ordered by `uploaded_at` descending. -/
def getDocuments (db : DB) (registrationNumber : String) : List StudentDocument :=
  List.insertionSort laterUploaded
    (db.student_documents.filter (fun d => d.registration_number == registrationNumber))

/-! ## Exam-card retrieval
Embedding of `GET /students/:id/exam-card` (src/index.js lines 2165-2211).
The source file is truncated mid-expression right after the
`student_documents` lookup; the fee gate and the lookup itself are taken from
the source, the value returned for a found document is `Modelled from the
spec:` the latest exam-card document's file URL. -/

/-- Responses of `GET /students/:id/exam-card` (the portion the claims
depend on). -/
inductive ExamCardResponse where
  | studentNotFound
  | feeBlocked (fee_balance : Int)
  | found (file_url : String)
  | noCard
deriving Repr, DecidableEq

/-- The post-fee-gate document lookup: latest `exam-card` document of the
student's registration number. -/
def examCardLookup (db : DB) (s : Student) : ExamCardResponse :=
  match (List.insertionSort laterUploaded (db.student_documents.filter (fun d =>
      d.registration_number == s.registration_number &&
      d.document_type == "exam-card"))).head? with
  | some d => .found d.file_url
  | none => .noCard

/-- `GET /students/:id/exam-card`: verify the student, then the fee gate
(403 when the student's fee record carries a positive balance), then the
document lookup. -/
def getExamCard (db : DB) (studentId : Nat) : ExamCardResponse :=
  match lookupStudentById db studentId with
  | none => .studentNotFound
  | some s =>
    match (db.fees.filter (fun f => f.student_id == studentId)).head? with
    | some f =>
      if f.fee_balance > 0 then .feeBlocked f.fee_balance
      else examCardLookup db s
    | none => examCardLookup db s

/-! ## Concrete fixtures used by witness theorems -/

/-- A concrete student. -/
def wS : Student := { id := 1, registration_number := "CS/001/2021", name := "Alice" }

/-- A concrete catalog unit. -/
def wU : CourseUnit := { id := 2, unit_name := "Algorithms", unit_code := "CS101" }

/-- A concrete allocated (not yet registered) unit for `wS`. -/
def wAllocated : AllocatedUnit :=
  { id := 3, student_id := 1, unit_id := 2, semester := 1,
    academic_year := "2024/2025", status := "allocated", notes := none }

/-- The same allocation after admin cancellation. -/
def wCancelled : AllocatedUnit := { wAllocated with status := "cancelled" }

/-- Database with one student, one unit, one `allocated` allocation. -/
def wDBalloc : DB :=
  { students := [wS], units := [wU], allocated_units := [wAllocated],
    registered_units := [], student_documents := [], fees := [], nextId := 10 }

/-- Database with one student, one unit, one `cancelled` allocation. -/
def wDBcancelled : DB :=
  { students := [wS], units := [wU], allocated_units := [wCancelled],
    registered_units := [], student_documents := [], fees := [], nextId := 10 }

/-- Database with one student and one unit and nothing else. -/
def wDBbase : DB :=
  { students := [wS], units := [wU], allocated_units := [],
    registered_units := [], student_documents := [], fees := [], nextId := 10 }

/-- Database with no rows at all. -/
def wDBempty : DB :=
  { students := [], units := [], allocated_units := [],
    registered_units := [], student_documents := [], fees := [], nextId := 10 }

/-- A concrete uploaded file. -/
def wFile : UploadedFile :=
  { name := "card.pdf", size := 2048, mimeType := "application/pdf" }

/-- An environment in which remote storage is not configured, local writes
and the database insert succeed. -/
def wEnvLocal : UploadEnv :=
  { supabaseConfigured := false, remoteFails := false, localWriteFails := false,
    insertOutcome := .ok, cleanupFails := false, now := 5 }

/-- A concrete exam-card document row for `wS`. -/
def wDoc : StudentDocument :=
  { id := 7, registration_number := "CS/001/2021", document_type := "exam-card",
    file_url := "/uploads/exam-card/CS/001/2021_4.pdf", file_name := "card.pdf",
    file_size := 2048, uploaded_at := 4 }

/-- Database with a student, a positive fee balance and an existing exam-card
document. -/
def wDBfees : DB :=
  { students := [wS], units := [], allocated_units := [], registered_units := [],
    student_documents := [wDoc], fees := [{ student_id := 1, fee_balance := 12500 }],
    nextId := 10 }

/-! ## Helper lemmas -/

/-- The row inserted by one successful iteration of the allocation loop. -/
def allocRow (sid sem : Nat) (ay : String) (notes : Option String) (db : DB)
    (uid : Nat) : AllocatedUnit :=
  { id := db.nextId, student_id := sid, unit_id := uid, semester := sem,
    academic_year := ay, status := "allocated", notes := notes }

theorem head_eq_some_mem {α : Type} {l : List α} {a : α}
    (h : l.head? = some a) : a ∈ l := by
  obtain ⟨ys, rfl⟩ := List.head?_eq_some_iff.mp h
  exact List.mem_cons_self a ys

theorem allocateOne_shape (sid sem : Nat) (ay : String) (notes : Option String)
    (db : DB) (uid : Nat) :
    ((allocateOne sid sem ay notes db uid).1 = db ∧
     (allocateOne sid sem ay notes db uid).2.1 = none ∧
     (allocateOne sid sem ay notes db uid).2.2.isSome = true) ∨
    (∃ u, findUnitById db uid = some u ∧
      activeAllocationExists db sid uid sem ay = false ∧
      allocateOne sid sem ay notes db uid =
        ({ db with
            allocated_units := db.allocated_units ++ [allocRow sid sem ay notes db uid],
            nextId := db.nextId + 1 },
         some { row := allocRow sid sem ay notes db uid,
                unit_name := u.unit_name, unit_code := u.unit_code }, none)) := by
  unfold allocateOne allocRow
  cases h : findUnitById db uid with
  | none => left; exact ⟨rfl, rfl, rfl⟩
  | some u =>
    by_cases ha : activeAllocationExists db sid uid sem ay
    · left; simp [ha]
    · by_cases hk : uniqueKeyTaken db sid uid sem ay
      · left; simp [ha, hk]
      · right; exact ⟨u, rfl, by simp [ha], by simp [ha, hk]⟩

theorem allocateOne_fixed (sid sem : Nat) (ay : String) (notes : Option String)
    (db : DB) (uid : Nat) :
    (allocateOne sid sem ay notes db uid).1.students = db.students ∧
    (allocateOne sid sem ay notes db uid).1.units = db.units ∧
    (allocateOne sid sem ay notes db uid).1.registered_units = db.registered_units ∧
    (allocateOne sid sem ay notes db uid).1.student_documents = db.student_documents ∧
    (allocateOne sid sem ay notes db uid).1.fees = db.fees := by
  unfold allocateOne
  cases findUnitById db uid with
  | none => exact ⟨rfl, rfl, rfl, rfl, rfl⟩
  | some u =>
    by_cases ha : activeAllocationExists db sid uid sem ay
    · simp [ha]
    · by_cases hk : uniqueKeyTaken db sid uid sem ay <;> simp [ha, hk]

theorem allocateLoop_cons (sid sem : Nat) (ay : String) (notes : Option String)
    (uid : Nat) (rest : List Nat) (db : DB) :
    allocateLoop sid sem ay notes (uid :: rest) db =
      ((allocateLoop sid sem ay notes rest (allocateOne sid sem ay notes db uid).1).1,
       (allocateOne sid sem ay notes db uid).2.1.toList ++
         (allocateLoop sid sem ay notes rest (allocateOne sid sem ay notes db uid).1).2.1,
       (allocateOne sid sem ay notes db uid).2.2.toList ++
         (allocateLoop sid sem ay notes rest (allocateOne sid sem ay notes db uid).1).2.2) :=
  rfl

theorem allocateLoop_fixed (sid sem : Nat) (ay : String) (notes : Option String) :
    ∀ (uids : List Nat) (db : DB),
      (allocateLoop sid sem ay notes uids db).1.students = db.students ∧
      (allocateLoop sid sem ay notes uids db).1.units = db.units ∧
      (allocateLoop sid sem ay notes uids db).1.registered_units = db.registered_units ∧
      (allocateLoop sid sem ay notes uids db).1.student_documents = db.student_documents ∧
      (allocateLoop sid sem ay notes uids db).1.fees = db.fees
  | [], db => ⟨rfl, rfl, rfl, rfl, rfl⟩
  | uid :: rest, db => by
    have h1 := allocateOne_fixed sid sem ay notes db uid
    have ih := allocateLoop_fixed sid sem ay notes rest (allocateOne sid sem ay notes db uid).1
    rw [allocateLoop_cons]
    exact ⟨ih.1.trans h1.1, ih.2.1.trans h1.2.1, ih.2.2.1.trans h1.2.2.1,
           ih.2.2.2.1.trans h1.2.2.2.1, ih.2.2.2.2.trans h1.2.2.2.2⟩

theorem allocateLoop_allocated (sid sem : Nat) (ay : String) (notes : Option String) :
    ∀ (uids : List Nat) (db : DB),
      (allocateLoop sid sem ay notes uids db).1.allocated_units =
        db.allocated_units ++
          ((allocateLoop sid sem ay notes uids db).2.1.map AllocatedRowOut.row) ∧
      ∀ a ∈ (allocateLoop sid sem ay notes uids db).2.1,
        a.row.status = "allocated" ∧ a.row.semester = sem ∧ a.row.academic_year = ay
  | [], db => by simp [allocateLoop]
  | uid :: rest, db => by
    rcases allocateOne_shape sid sem ay notes db uid with ⟨h1, h2, _⟩ | ⟨u, _, _, heq⟩
    · have ih := allocateLoop_allocated sid sem ay notes rest (allocateOne sid sem ay notes db uid).1
      rw [allocateLoop_cons, h2, h1]
      rw [h1] at ih
      simpa using ih
    · have ih := allocateLoop_allocated sid sem ay notes rest (allocateOne sid sem ay notes db uid).1
      rw [allocateLoop_cons, heq]
      rw [heq] at ih
      constructor
      · rw [ih.1]
        simp [allocRow, List.append_assoc]
      · intro a ha
        simp only [Option.toList_some, List.cons_append, List.nil_append,
          List.mem_cons] at ha
        rcases ha with rfl | ha
        · exact ⟨rfl, rfl, rfl⟩
        · exact ih.2 a ha

theorem allocateLoop_length (sid sem : Nat) (ay : String) (notes : Option String) :
    ∀ (uids : List Nat) (db : DB),
      (allocateLoop sid sem ay notes uids db).2.1.length +
        (allocateLoop sid sem ay notes uids db).2.2.length = uids.length
  | [], _ => rfl
  | uid :: rest, db => by
    have ih := allocateLoop_length sid sem ay notes rest (allocateOne sid sem ay notes db uid).1
    rw [allocateLoop_cons]
    rcases allocateOne_shape sid sem ay notes db uid with ⟨_, h2, h3⟩ | ⟨u, _, _, heq⟩
    · obtain ⟨e, he⟩ := Option.isSome_iff_exists.mp h3
      rw [h2, he]
      simp only [Option.toList_none, Option.toList_some, List.nil_append,
        List.length_cons, List.length_append, List.length_nil]
      omega
    · rw [heq]
      simp only [Option.toList_none, Option.toList_some, List.nil_append,
        List.cons_append, List.length_cons]
      rw [heq] at ih
      dsimp only at ih ⊢
      omega

theorem allocateLoop_append (sid sem : Nat) (ay : String) (notes : Option String) :
    ∀ (xs ys : List Nat) (db : DB),
      allocateLoop sid sem ay notes (xs ++ ys) db =
        ((allocateLoop sid sem ay notes ys (allocateLoop sid sem ay notes xs db).1).1,
         (allocateLoop sid sem ay notes xs db).2.1 ++
           (allocateLoop sid sem ay notes ys (allocateLoop sid sem ay notes xs db).1).2.1,
         (allocateLoop sid sem ay notes xs db).2.2 ++
           (allocateLoop sid sem ay notes ys (allocateLoop sid sem ay notes xs db).1).2.2)
  | [], ys, db => by simp [allocateLoop]
  | x :: xs, ys, db => by
    have ih := allocateLoop_append sid sem ay notes xs ys (allocateOne sid sem ay notes db x).1
    simp only [List.cons_append, allocateLoop_cons, ih, List.append_assoc]

theorem activeAllocationExists_mono {db db' : DB} {sid uid sem : Nat} {ay : String}
    (hext : ∃ new, db'.allocated_units = db.allocated_units ++ new)
    (h : activeAllocationExists db sid uid sem ay = true) :
    activeAllocationExists db' sid uid sem ay = true := by
  obtain ⟨new, hnew⟩ := hext
  unfold activeAllocationExists at h ⊢
  rw [hnew, List.any_append, h, Bool.true_or]

theorem findUnitById_congr {db db' : DB} (h : db'.units = db.units) (uid : Nat) :
    findUnitById db' uid = findUnitById db uid := by
  unfold findUnitById
  rw [h]

theorem allocateOne_already (sid sem : Nat) (ay : String) (notes : Option String)
    (db : DB) (uid : Nat) (u : CourseUnit)
    (hu : findUnitById db uid = some u)
    (ha : activeAllocationExists db sid uid sem ay = true) :
    allocateOne sid sem ay notes db uid =
      (db, none,
       some ("Unit " ++ u.unit_code ++ " already allocated for this semester")) := by
  unfold allocateOne
  rw [hu]
  simp [ha]

theorem allocateLoop_no_insert_for_active (sid sem : Nat) (ay : String)
    (notes : Option String) (uid : Nat) :
    ∀ (uids : List Nat) (db : DB),
      activeAllocationExists db sid uid sem ay = true →
      ∀ a ∈ (allocateLoop sid sem ay notes uids db).2.1, a.row.unit_id ≠ uid
  | [], db => by intro _ a ha; simp [allocateLoop] at ha
  | v :: rest, db => by
    intro hactive a ha
    rw [allocateLoop_cons] at ha
    rcases allocateOne_shape sid sem ay notes db v with ⟨h1, h2, _⟩ | ⟨u, hu, hact, heq⟩
    · rw [h2, h1] at ha
      simp only [Option.toList_none, List.nil_append] at ha
      exact allocateLoop_no_insert_for_active sid sem ay notes uid rest db hactive a ha
    · rw [heq] at ha
      simp only [Option.toList_some, List.cons_append, List.nil_append,
        List.mem_cons] at ha
      rcases ha with rfl | ha
      · intro hcontra
        have hv : v = uid := hcontra
        rw [hv, hactive] at hact
        exact Bool.true_eq_false.mp hact
      · refine allocateLoop_no_insert_for_active sid sem ay notes uid rest _ ?_ a ha
        refine activeAllocationExists_mono ⟨[allocRow sid sem ay notes db v], ?_⟩ hactive
        rfl

theorem lookupStudentByReg_mem {db : DB} {r : String} {S : Student}
    (hS : lookupStudentByReg db r = some S) : S ∈ db.students :=
  (List.mem_filter.mp (head_eq_some_mem hS)).1

theorem lookupStudentById_of_reg {db : DB} {r : String} {S : Student}
    (hS : lookupStudentByReg db r = some S) :
    ∃ s, lookupStudentById db S.id = some s := by
  unfold lookupStudentById
  cases hh : (db.students.filter (fun s => s.id == S.id)).head? with
  | some s => exact ⟨s, rfl⟩
  | none =>
    exfalso
    have hmem : S ∈ db.students.filter (fun s => s.id == S.id) :=
      List.mem_filter.mpr ⟨lookupStudentByReg_mem hS, by simp⟩
    rw [List.head?_eq_none_iff] at hh
    rw [hh] at hmem
    exact List.not_mem_nil S hmem

theorem allocateUnitsByReg_ok (db : DB) (regNumber : String) (S : Student)
    (unit_ids : List Nat) (sem : Nat) (ay : String) (notes : Option String)
    (hS : lookupStudentByReg db regNumber = some S) (hne : unit_ids ≠ []) :
    allocateUnitsByReg regNumber unit_ids sem ay notes db =
      (.ok (allocateLoop S.id sem ay notes unit_ids db).2.1
           (allocateLoop S.id sem ay notes unit_ids db).2.2
           { total_requested := unit_ids.length,
             successfully_allocated :=
               (allocateLoop S.id sem ay notes unit_ids db).2.1.length,
             errors := (allocateLoop S.id sem ay notes unit_ids db).2.2.length },
       (allocateLoop S.id sem ay notes unit_ids db).1) := by
  obtain ⟨s', hid⟩ := lookupStudentById_of_reg hS
  cases unit_ids with
  | nil => exact absurd rfl hne
  | cons x xs =>
    unfold allocateUnitsByReg
    rw [hS]
    simp only [List.isEmpty_cons, Bool.false_eq_true, if_false, hid]

/-! ## Claim theorems: unit allocation -/

/-- C4: a bulk allocation call over a non-empty `unit_ids` array for an
existing student returns a partial-success response: the summary carries
`total_requested` equal to the length of `unit_ids`,
`successfully_allocated` equal to the number of inserted rows and `errors`
equal to the number of per-item errors; every unit id contributes exactly
one success or one error; the successful subset (and nothing else) is
committed to `allocated_units`; and the success and error lists preserve
the order of the input array (outputs of any prefix of `unit_ids` precede
outputs of the corresponding suffix). -/
theorem allocateUnits_partial_success (db : DB) (regNumber : String) (S : Student)
    (unit_ids : List Nat) (sem : Nat) (ay : String) (notes : Option String)
    (hS : lookupStudentByReg db regNumber = some S) (hne : unit_ids ≠ []) :
    ∃ allocs errs db',
      allocateUnitsByReg regNumber unit_ids sem ay notes db =
        (.ok allocs errs
          { total_requested := unit_ids.length,
            successfully_allocated := allocs.length,
            errors := errs.length }, db') ∧
      allocs.length + errs.length = unit_ids.length ∧
      db'.allocated_units = db.allocated_units ++ allocs.map AllocatedRowOut.row ∧
      db'.registered_units = db.registered_units ∧
      db'.students = db.students ∧
      (∀ xs ys, unit_ids = xs ++ ys →
        allocs = (allocateLoop S.id sem ay notes xs db).2.1 ++
          (allocateLoop S.id sem ay notes ys (allocateLoop S.id sem ay notes xs db).1).2.1 ∧
        errs = (allocateLoop S.id sem ay notes xs db).2.2 ++
          (allocateLoop S.id sem ay notes ys (allocateLoop S.id sem ay notes xs db).1).2.2) := by
  refine ⟨(allocateLoop S.id sem ay notes unit_ids db).2.1,
    (allocateLoop S.id sem ay notes unit_ids db).2.2,
    (allocateLoop S.id sem ay notes unit_ids db).1,
    allocateUnitsByReg_ok db regNumber S unit_ids sem ay notes hS hne,
    allocateLoop_length S.id sem ay notes unit_ids db,
    (allocateLoop_allocated S.id sem ay notes unit_ids db).1,
    (allocateLoop_fixed S.id sem ay notes unit_ids db).2.2.1,
    (allocateLoop_fixed S.id sem ay notes unit_ids db).1, ?_⟩
  intro xs ys hcat
  rw [hcat, allocateLoop_append]
  exact ⟨rfl, rfl⟩

/-- Witness for C4 at a concrete database and request. -/
theorem allocateUnits_partial_success_witness :
    ∃ allocs errs db',
      allocateUnitsByReg "CS/001/2021" [2] 1 "2024/2025" none wDBalloc =
        (.ok allocs errs
          { total_requested := [2].length,
            successfully_allocated := allocs.length,
            errors := errs.length }, db') ∧
      allocs.length + errs.length = [2].length ∧
      db'.allocated_units = wDBalloc.allocated_units ++ allocs.map AllocatedRowOut.row ∧
      db'.registered_units = wDBalloc.registered_units ∧
      db'.students = wDBalloc.students ∧
      (∀ xs ys, [2] = xs ++ ys →
        allocs = (allocateLoop wS.id 1 "2024/2025" none xs wDBalloc).2.1 ++
          (allocateLoop wS.id 1 "2024/2025" none ys
            (allocateLoop wS.id 1 "2024/2025" none xs wDBalloc).1).2.1 ∧
        errs = (allocateLoop wS.id 1 "2024/2025" none xs wDBalloc).2.2 ++
          (allocateLoop wS.id 1 "2024/2025" none ys
            (allocateLoop wS.id 1 "2024/2025" none xs wDBalloc).1).2.2) :=
  allocateUnits_partial_success wDBalloc "CS/001/2021" wS [2] 1 "2024/2025" none
    (by decide) (by decide)

/-- C3: when a non-cancelled allocation already exists for
(student, unit, semester, academic_year), a bulk allocation call containing
that unit id records the per-item `already allocated` error, inserts no new
row for that unit, leaves the pre-existing row unchanged in the database,
and still produces exactly one outcome per requested unit id. -/
theorem allocate_already_allocated (db : DB) (regNumber : String) (S : Student)
    (uid : Nat) (U : CourseUnit) (E : AllocatedUnit) (unit_ids : List Nat)
    (sem : Nat) (ay : String) (notes : Option String)
    (hS : lookupStudentByReg db regNumber = some S)
    (hmem : uid ∈ unit_ids)
    (hU : findUnitById db uid = some U)
    (hE : E ∈ db.allocated_units) (hEs : E.student_id = S.id)
    (hEu : E.unit_id = uid) (hEsem : E.semester = sem)
    (hEay : E.academic_year = ay) (hEst : E.status ≠ "cancelled") :
    ∃ allocs errs db',
      allocateUnitsByReg regNumber unit_ids sem ay notes db =
        (.ok allocs errs
          { total_requested := unit_ids.length,
            successfully_allocated := allocs.length,
            errors := errs.length }, db') ∧
      ("Unit " ++ U.unit_code ++ " already allocated for this semester") ∈ errs ∧
      (∀ a ∈ allocs, a.row.unit_id ≠ uid) ∧
      E ∈ db'.allocated_units ∧
      allocs.length + errs.length = unit_ids.length := by
  have hne : unit_ids ≠ [] := List.ne_nil_of_mem hmem
  have hbool : activeAllocationExists db S.id uid sem ay = true := by
    unfold activeAllocationExists
    refine List.any_eq_true.mpr ⟨E, hE, ?_⟩
    simp only [hEs, hEu, hEsem, hEay, beq_self_eq_true, Bool.and_self, Bool.true_and]
    exact bne_iff_ne.mpr hEst
  refine ⟨(allocateLoop S.id sem ay notes unit_ids db).2.1,
    (allocateLoop S.id sem ay notes unit_ids db).2.2,
    (allocateLoop S.id sem ay notes unit_ids db).1,
    allocateUnitsByReg_ok db regNumber S unit_ids sem ay notes hS hne, ?_, ?_, ?_, ?_⟩
  · obtain ⟨xs, ys, hcat⟩ := List.append_of_mem hmem
    have hfix := allocateLoop_fixed S.id sem ay notes xs db
    have hall := allocateLoop_allocated S.id sem ay notes xs db
    have hU1 : findUnitById (allocateLoop S.id sem ay notes xs db).1 uid = some U := by
      rw [findUnitById_congr hfix.2.1, hU]
    have hb1 : activeAllocationExists (allocateLoop S.id sem ay notes xs db).1
        S.id uid sem ay = true :=
      activeAllocationExists_mono ⟨_, hall.1⟩ hbool
    rw [hcat, allocateLoop_append]
    dsimp only
    refine List.mem_append_right _ ?_
    rw [allocateLoop_cons, allocateOne_already S.id sem ay notes _ uid U hU1 hb1]
    exact List.mem_append_left _ (List.mem_cons_self _ _)
  · exact allocateLoop_no_insert_for_active S.id sem ay notes uid unit_ids db hbool
  · rw [(allocateLoop_allocated S.id sem ay notes unit_ids db).1]
    exact List.mem_append_left _ hE
  · exact allocateLoop_length S.id sem ay notes unit_ids db

/-- Witness for C3: re-requesting an already-allocated unit. -/
theorem allocate_already_allocated_witness :
    ∃ allocs errs db',
      allocateUnitsByReg "CS/001/2021" [2] 1 "2024/2025" none wDBalloc =
        (.ok allocs errs
          { total_requested := [2].length,
            successfully_allocated := allocs.length,
            errors := errs.length }, db') ∧
      ("Unit " ++ wU.unit_code ++ " already allocated for this semester") ∈ errs ∧
      (∀ a ∈ allocs, a.row.unit_id ≠ 2) ∧
      wAllocated ∈ db'.allocated_units ∧
      allocs.length + errs.length = [2].length :=
  allocate_already_allocated wDBalloc "CS/001/2021" wS 2 wU wAllocated [2] 1
    "2024/2025" none (by decide) (by decide) (by decide) (by decide) (by decide)
    (by decide) (by decide) (by decide) (by decide)

/-- C5 (evaluation at the failing input): with a single `cancelled`
allocation occupying the (student, unit, semester, academic_year) key, a new
allocation request for the same key does not succeed: the INSERT violates
the unconditional `unique_student_unit_semester` constraint, the violation
is reported as a per-item error, no row is inserted, and the database is
unchanged. -/
theorem allocate_after_cancel_rejected :
    allocateUnitsByReg "CS/001/2021" [2] 1 "2024/2025" none wDBcancelled =
      (.ok []
        ["Failed to allocate unit 2: duplicate key value violates unique constraint unique_student_unit_semester"]
        { total_requested := 1, successfully_allocated := 0, errors := 1 },
       wDBcancelled) := by decide

/-! ## Claim theorems: registering an allocated unit -/

/-- C1: when the student resolves, the allocation id resolves to an
allocation of that student in status `allocated` (joined against the unit
catalog), and no `registered_units` row exists for (student, unit_code),
the register operation succeeds: it flips the allocation row with that id to
status `registered`, appends exactly one `registered_units` row carrying the
student id, unit name, unit code and status `registered`, and nothing else;
the transaction is atomic (when the insert raises, the state is unchanged
and the call fails); a second call with the same allocation id answers the
not-eligible error and changes nothing. -/
theorem registerAllocatedUnit_correct (db : DB) (regNumber : String) (S : Student)
    (auid : Nat) (A : AllocatedUnit) (U : CourseUnit)
    (hS : lookupStudentByReg db regNumber = some S)
    (hJoin : (allocatedJoinRows db auid S.id).head? = some (A, U))
    (hNoReg : db.registered_units.any (fun ru =>
        ru.student_id == S.id && ru.unit_code == U.unit_code) = false) :
    ∃ ru db',
      registerAllocatedUnit false regNumber (some auid) db = (.ok ru, db') ∧
      ru.student_id = S.id ∧ ru.unit_name = U.unit_name ∧
      ru.unit_code = U.unit_code ∧ ru.status = "registered" ∧
      db'.registered_units = db.registered_units ++ [ru] ∧
      db'.allocated_units = db.allocated_units.map (fun a =>
        if a.id == auid then { a with status := "registered" } else a) ∧
      { A with status := "registered" } ∈ db'.allocated_units ∧
      (∀ f, registerAllocatedUnit f regNumber (some auid) db' = (.notEligible, db')) ∧
      registerAllocatedUnit true regNumber (some auid) db = (.serverError, db) := by
  have hmem : (A, U) ∈ allocatedJoinRows db auid S.id := head_eq_some_mem hJoin
  unfold allocatedJoinRows at hmem
  obtain ⟨au, hauf, hmap⟩ := List.mem_flatMap.mp hmem
  obtain ⟨u, huf, hpair⟩ := List.mem_map.mp hmap
  obtain ⟨rfl, rfl⟩ : A = au ∧ U = u :=
    ⟨(congrArg Prod.fst hpair).symm, (congrArg Prod.snd hpair).symm⟩
  obtain ⟨hAmem, hAbool⟩ := List.mem_filter.mp hauf
  have hAid : A.id = auid := by
    have h1 := hAbool
    simp only [Bool.and_eq_true, beq_iff_eq] at h1
    exact h1.1.1
  refine ⟨{ id := db.nextId, student_id := S.id, unit_name := U.unit_name,
            unit_code := U.unit_code, status := "registered" },
    { db with
      allocated_units := db.allocated_units.map (fun a =>
        if a.id == auid then { a with status := "registered" } else a),
      registered_units := db.registered_units ++
        [{ id := db.nextId, student_id := S.id, unit_name := U.unit_name,
           unit_code := U.unit_code, status := "registered" }],
      nextId := db.nextId + 1 }, ?_, rfl, rfl, rfl, rfl, rfl, rfl, ?_, ?_, ?_⟩
  · simp only [registerAllocatedUnit, hS, hJoin, hNoReg, Bool.false_eq_true,
      if_false]
  · refine List.mem_map.mpr ⟨A, hAmem, ?_⟩
    simp [hAid]
  · intro f
    have hfilter : (db.allocated_units.map (fun a =>
        if a.id == auid then { a with status := "registered" } else a)).filter
        (fun au => au.id == auid && au.student_id == S.id &&
          au.status == "allocated") = [] := by
      rw [List.filter_eq_nil_iff]
      intro a' ha'
      obtain ⟨a, _, rfl⟩ := List.mem_map.mp ha'
      by_cases hc : a.id == auid <;> simp [hc]
    have hJ2 : (allocatedJoinRows
        { db with
          allocated_units := db.allocated_units.map (fun a =>
            if a.id == auid then { a with status := "registered" } else a),
          registered_units := db.registered_units ++
            [{ id := db.nextId, student_id := S.id, unit_name := U.unit_name,
               unit_code := U.unit_code, status := "registered" }],
          nextId := db.nextId + 1 } auid S.id).head? = none := by
      unfold allocatedJoinRows
      dsimp only
      rw [hfilter]
      rfl
    have hS2 : lookupStudentByReg
        { db with
          allocated_units := db.allocated_units.map (fun a =>
            if a.id == auid then { a with status := "registered" } else a),
          registered_units := db.registered_units ++
            [{ id := db.nextId, student_id := S.id, unit_name := U.unit_name,
               unit_code := U.unit_code, status := "registered" }],
          nextId := db.nextId + 1 } regNumber = some S := hS
    simp only [registerAllocatedUnit, hS2, hJ2]
  · simp only [registerAllocatedUnit, hS, hJoin, hNoReg, Bool.false_eq_true,
      if_false, if_true]

/-- Witness for C1 at a concrete database. -/
theorem registerAllocatedUnit_correct_witness :
    ∃ ru db',
      registerAllocatedUnit false "CS/001/2021" (some 3) wDBalloc = (.ok ru, db') ∧
      ru.student_id = wS.id ∧ ru.unit_name = wU.unit_name ∧
      ru.unit_code = wU.unit_code ∧ ru.status = "registered" ∧
      db'.registered_units = wDBalloc.registered_units ++ [ru] ∧
      db'.allocated_units = wDBalloc.allocated_units.map (fun a =>
        if a.id == 3 then { a with status := "registered" } else a) ∧
      { wAllocated with status := "registered" } ∈ db'.allocated_units ∧
      (∀ f, registerAllocatedUnit f "CS/001/2021" (some 3) db' = (.notEligible, db')) ∧
      registerAllocatedUnit true "CS/001/2021" (some 3) wDBalloc =
        (.serverError, wDBalloc) :=
  registerAllocatedUnit_correct wDBalloc "CS/001/2021" wS 3 wAllocated wU
    (by decide) (by decide) (by decide)

/-! ## Claim theorems: the cross-table invariant -/

/-- C9 (amended): the AllocatedUnit/RegisteredUnit invariant is preserved by
the bulk allocation operation and, when allocation row ids are unique, by
the register-allocated-unit operation (whose two writes happen in one
transaction); the legacy direct registration endpoint is not
invariant-preserving (see the counterexample theorem). -/
theorem pairInvariant_preserved :
    (∀ (regNumber : String) (unit_ids : List Nat) (sem : Nat) (ay : String)
       (notes : Option String) (db : DB),
       pairInvariant db →
       pairInvariant (allocateUnitsByReg regNumber unit_ids sem ay notes db).2) ∧
    (∀ (f : Bool) (regNumber : String) (auidOpt : Option Nat) (db : DB),
       (∀ a ∈ db.allocated_units, ∀ b ∈ db.allocated_units, a.id = b.id → a = b) →
       pairInvariant db →
       pairInvariant (registerAllocatedUnit f regNumber auidOpt db).2) := by
  constructor
  · intro regNumber unit_ids sem ay notes db hinv
    unfold allocateUnitsByReg
    cases hS : lookupStudentByReg db regNumber with
    | none => exact hinv
    | some s =>
      dsimp only
      by_cases hemp : unit_ids.isEmpty = true
      · rw [if_pos hemp]
        exact hinv
      · rw [if_neg hemp]
        cases hid : lookupStudentById db s.id with
        | none => exact hinv
        | some s2 =>
          show pairInvariant (allocateLoop s.id sem ay notes unit_ids db).1
          obtain ⟨f1, f2, f3, f4, f5⟩ := allocateLoop_fixed s.id sem ay notes unit_ids db
          obtain ⟨halloc, hstat⟩ := allocateLoop_allocated s.id sem ay notes unit_ids db
          obtain ⟨inv1, inv2⟩ := hinv
          constructor
          · intro ru hru hrs
            rw [f3] at hru
            obtain ⟨au, hau, u, hu, props⟩ := inv1 ru hru hrs
            refine ⟨au, ?_, u, ?_, props⟩
            · rw [halloc]
              exact List.mem_append_left _ hau
            · rw [f2]
              exact hu
          · intro au hau hrs
            rw [halloc] at hau
            rcases List.mem_append.mp hau with hold | hnew
            · obtain ⟨u, hu, ru, hru, props⟩ := inv2 au hold hrs
              refine ⟨u, ?_, ru, ?_, props⟩
              · rw [f2]
                exact hu
              · rw [f3]
                exact hru
            · obtain ⟨a, ha, rfl⟩ := List.mem_map.mp hnew
              have h1 := (hstat a ha).1
              rw [hrs] at h1
              exact absurd h1 (by decide)
  · intro f regNumber auidOpt db hid hinv
    unfold registerAllocatedUnit
    cases auidOpt with
    | none => exact hinv
    | some auid =>
      dsimp only
      cases hS : lookupStudentByReg db regNumber with
      | none => exact hinv
      | some s =>
        dsimp only
        cases hJ : (allocatedJoinRows db auid s.id).head? with
        | none => exact hinv
        | some p =>
          obtain ⟨A, U⟩ := p
          dsimp only
          by_cases hreg : db.registered_units.any (fun ru =>
              ru.student_id == s.id && ru.unit_code == U.unit_code) = true
          · rw [if_pos hreg]
            exact hinv
          · rw [if_neg hreg]
            cases f with
            | true =>
              rw [if_pos rfl]
              exact hinv
            | false =>
              rw [if_neg (by decide)]
              dsimp only
              have hmem := head_eq_some_mem hJ
              unfold allocatedJoinRows at hmem
              obtain ⟨au, hauf, hmap⟩ := List.mem_flatMap.mp hmem
              obtain ⟨u, huf, hpair⟩ := List.mem_map.mp hmap
              obtain ⟨rfl, rfl⟩ : A = au ∧ U = u :=
                ⟨(congrArg Prod.fst hpair).symm, (congrArg Prod.snd hpair).symm⟩
              obtain ⟨hAmem, hAbool⟩ := List.mem_filter.mp hauf
              simp only [Bool.and_eq_true, beq_iff_eq] at hAbool
              obtain ⟨⟨hAid, hAsid⟩, hAstat⟩ := hAbool
              obtain ⟨hUmem, hUbool⟩ := List.mem_filter.mp huf
              have hUid : U.id = A.unit_id := beq_iff_eq.mp hUbool
              obtain ⟨inv1, inv2⟩ := hinv
              constructor
              · intro ru hru hrs
                rcases List.mem_append.mp hru with hold | hone
                · obtain ⟨au2, hau2, u2, hu2, p1, p2, p3, p4⟩ := inv1 ru hold hrs
                  refine ⟨(fun a => if a.id == auid then
                      { a with status := "registered" } else a) au2,
                    List.mem_map_of_mem _ hau2, u2, hu2, ?_, ?_, ?_, p4⟩
                  · by_cases hc : au2.id == auid <;> simp [hc, p1]
                  · by_cases hc : au2.id == auid <;> simp [hc, p2]
                  · by_cases hc : au2.id == auid <;> simp [hc, p3]
                · have hr : ru =
                      ({ id := db.nextId, student_id := s.id,
                         unit_name := U.unit_name, unit_code := U.unit_code,
                         status := "registered" } : RegisteredUnit) := by
                    simpa using hone
                  subst hr
                  refine ⟨(fun a => if a.id == auid then
                      { a with status := "registered" } else a) A,
                    List.mem_map_of_mem _ hAmem, U, hUmem, ?_, ?_, ?_, ?_⟩
                  all_goals simp [hAid, hAsid, hUid]
              · intro au2 hau2 hrs
                obtain ⟨a, ha, rfl⟩ := List.mem_map.mp hau2
                by_cases hc : a.id == auid
                · have haA : a = A := hid a ha A hAmem (by rw [beq_iff_eq.mp hc, hAid])
                  refine ⟨U, hUmem,
                    ({ id := db.nextId, student_id := s.id,
                       unit_name := U.unit_name, unit_code := U.unit_code,
                       status := "registered" } : RegisteredUnit),
                    List.mem_append_right _ (List.mem_cons_self _ _), ?_, ?_, rfl, rfl⟩
                  · simp [hc, haA, hUid, hAid]
                  · simp [hc, haA, hAsid, hAid]
                · have hfa : (if (a.id == auid) = true then
                      { a with status := "registered" } else a) = a := by
                    simp [hc]
                  rw [hfa] at hrs ⊢
                  obtain ⟨u2, hu2, ru2, hru2, props⟩ := inv2 a ha hrs
                  exact ⟨u2, hu2, ru2, List.mem_append_left _ hru2, props⟩

/-- Witness for C9, applying both preserved operations at concrete states. -/
theorem pairInvariant_preserved_witness :
    pairInvariant (allocateUnitsByReg "CS/001/2021" [2] 1 "2024/2025" none wDBbase).2 ∧
    pairInvariant (registerAllocatedUnit false "CS/001/2021" (some 3) wDBalloc).2 :=
  ⟨pairInvariant_preserved.1 "CS/001/2021" [2] 1 "2024/2025" none wDBbase (by decide),
   pairInvariant_preserved.2 false "CS/001/2021" (some 3) wDBalloc (by decide) (by decide)⟩

/-- C9 counterexample: starting from a state satisfying the invariant, one
completed legacy direct unit registration (one of the operations the claim
quantifies over) yields a state that violates the invariant: a
`registered_units` row in status `registered` with no `allocated_units` row
at all for that student and unit. -/
theorem legacy_register_breaks_invariant :
    pairInvariant wDBbase ∧
    (legacyRegisterUnit "CS/001/2021" "Calculus" "MATH200" "registered" wDBbase).1 =
      .ok { id := 11, student_id := 1, unit_name := "Calculus",
            unit_code := "MATH200", status := "registered" } ∧
    ¬ pairInvariant
        (legacyRegisterUnit "CS/001/2021" "Calculus" "MATH200" "registered" wDBbase).2 :=
  ⟨by decide, by decide, by decide⟩

/-! ## Claim theorems: document uploads and retrieval -/

theorem handleFileUpload_local_shape (env : UploadEnv) (reg : String)
    (file : UploadedFile) (dt : String) (db : DB)
    (hcond : (env.supabaseConfigured && !env.remoteFails) = false)
    (hlocal : env.localWriteFails = false)
    (hins : env.insertOutcome = .ok) :
    handleFileUpload env reg file dt db =
      (.ok { id := db.nextId, registrationNumber := reg, documentType := dt,
             fileUrl := "/uploads/" ++ uploadKey env reg file dt,
             fileName := file.name, fileSize := file.size,
             uploadedAt := env.now, storageMethod := "local" },
       { db := { db with student_documents := db.student_documents ++
           [{ id := db.nextId, registration_number := reg, document_type := dt,
              file_url := "/uploads/" ++ uploadKey env reg file dt,
              file_name := file.name, file_size := file.size,
              uploaded_at := env.now }], nextId := db.nextId + 1 },
         storedBlob := some ("local", uploadKey env reg file dt),
         cleanupAttempted := false }) := by
  simp [handleFileUpload, hcond, hlocal, hins]

theorem handleFileUpload_supabase_shape (env : UploadEnv) (reg : String)
    (file : UploadedFile) (dt : String) (db : DB)
    (hcond : (env.supabaseConfigured && !env.remoteFails) = true)
    (hins : env.insertOutcome = .ok) :
    handleFileUpload env reg file dt db =
      (.ok { id := db.nextId, registrationNumber := reg, documentType := dt,
             fileUrl := supabasePublicUrl (uploadKey env reg file dt),
             fileName := file.name, fileSize := file.size,
             uploadedAt := env.now, storageMethod := "supabase" },
       { db := { db with student_documents := db.student_documents ++
           [{ id := db.nextId, registration_number := reg, document_type := dt,
              file_url := supabasePublicUrl (uploadKey env reg file dt),
              file_name := file.name, file_size := file.size,
              uploaded_at := env.now }], nextId := db.nextId + 1 },
         storedBlob := some ("supabase", uploadKey env reg file dt),
         cleanupAttempted := false }) := by
  simp [handleFileUpload, hcond, hins]

/-- C6: when the remote store is not configured or the remote upload path
raises, and the local write succeeds, the upload still succeeds through the
local fallback: the blob is stored locally under the same
documentType/registrationNumber_timestamp.extension key, the returned URL
is that key behind the /uploads/ prefix, and the reported storage method is
local. -/
theorem upload_local_fallback (env : UploadEnv) (reg : String)
    (file : UploadedFile) (dt : String) (db : DB)
    (hfail : env.supabaseConfigured = false ∨ env.remoteFails = true)
    (hlocal : env.localWriteFails = false)
    (hins : env.insertOutcome = .ok) :
    ∃ data eff,
      handleFileUpload env reg file dt db = (.ok data, eff) ∧
      data.storageMethod = "local" ∧
      data.fileUrl = "/uploads/" ++ uploadKey env reg file dt ∧
      eff.storedBlob = some ("local", uploadKey env reg file dt) ∧
      uploadKey env reg file dt =
        dt ++ "/" ++ reg ++ "_" ++ toString env.now ++ "." ++ fileExtension file := by
  have hcond : (env.supabaseConfigured && !env.remoteFails) = false := by
    rcases hfail with h | h <;> simp [h]
  exact ⟨_, _, handleFileUpload_local_shape env reg file dt db hcond hlocal hins,
    rfl, rfl, rfl, rfl⟩

/-- Witness for C6 with remote storage unconfigured. -/
theorem upload_local_fallback_witness :
    ∃ data eff,
      handleFileUpload wEnvLocal "CS/001/2021" wFile "results" wDBbase =
        (.ok data, eff) ∧
      data.storageMethod = "local" ∧
      data.fileUrl = "/uploads/" ++ uploadKey wEnvLocal "CS/001/2021" wFile "results" ∧
      eff.storedBlob = some ("local", uploadKey wEnvLocal "CS/001/2021" wFile "results") ∧
      uploadKey wEnvLocal "CS/001/2021" wFile "results" =
        "results" ++ "/" ++ "CS/001/2021" ++ "_" ++ toString wEnvLocal.now ++ "." ++
          fileExtension wFile :=
  upload_local_fallback wEnvLocal "CS/001/2021" wFile "results" wDBbase
    (Or.inl rfl) rfl rfl

/-- C7: every successful upload appends exactly one new `student_documents`
row and leaves all existing rows in place (no update or replace), and
document retrieval returns a permutation of exactly the student's rows,
sorted by `uploaded_at` descending, so the first returned element was
uploaded no earlier than every returned element. -/
theorem upload_appends_and_latest_first :
    (∀ (env : UploadEnv) (reg : String) (file : UploadedFile) (dt : String)
       (db : DB) (data : UploadData) (eff : UploadEffects),
       handleFileUpload env reg file dt db = (.ok data, eff) →
       ∃ d, eff.db.student_documents = db.student_documents ++ [d] ∧
         d.registration_number = reg ∧ d.document_type = dt ∧
         d.uploaded_at = env.now) ∧
    (∀ (db : DB) (reg : String),
       (getDocuments db reg).Perm
         (db.student_documents.filter (fun d => d.registration_number == reg)) ∧
       List.Sorted laterUploaded (getDocuments db reg) ∧
       (∀ h t, getDocuments db reg = h :: t →
         ∀ d ∈ getDocuments db reg, d.uploaded_at ≤ h.uploaded_at)) := by
  constructor
  · intro env reg file dt db data eff h
    unfold handleFileUpload at h
    dsimp only at h
    by_cases h1 : (env.supabaseConfigured && !env.remoteFails) = true
    · rw [if_pos h1] at h
      cases hio : env.insertOutcome with
      | ok =>
        rw [hio] at h
        have he := congrArg Prod.snd h
        dsimp only at he
        rw [← he]
        exact ⟨_, rfl, rfl, rfl, rfl⟩
      | emptyRows =>
        rw [hio] at h
        exact absurd (congrArg Prod.fst h) (by simp)
      | raises msg =>
        rw [hio] at h
        exact absurd (congrArg Prod.fst h) (by simp)
    · rw [if_neg h1] at h
      by_cases h2 : env.localWriteFails = true
      · rw [if_pos h2] at h
        exact absurd (congrArg Prod.fst h) (by simp)
      · rw [if_neg h2] at h
        cases hio : env.insertOutcome with
        | ok =>
          rw [hio] at h
          have he := congrArg Prod.snd h
          dsimp only at he
          rw [← he]
          exact ⟨_, rfl, rfl, rfl, rfl⟩
        | emptyRows =>
          rw [hio] at h
          exact absurd (congrArg Prod.fst h) (by simp)
        | raises msg =>
          rw [hio] at h
          exact absurd (congrArg Prod.fst h) (by simp)
  · intro db reg
    have hs : List.Sorted laterUploaded (getDocuments db reg) :=
      List.sorted_insertionSort laterUploaded _
    refine ⟨List.perm_insertionSort laterUploaded _, hs, ?_⟩
    intro h t heq d hd
    rw [heq] at hs hd
    rcases List.mem_cons.mp hd with rfl | hdt
    · exact Nat.le_refl _
    · exact List.rel_of_sorted_cons hs d hdt

/-- Witness for C7 at a concrete upload and a concrete retrieval. -/
theorem upload_appends_and_latest_first_witness :
    (∃ d, (handleFileUpload wEnvLocal "CS/001/2021" wFile "results" wDBbase).2.db.student_documents =
        wDBbase.student_documents ++ [d] ∧
      d.registration_number = "CS/001/2021" ∧ d.document_type = "results" ∧
      d.uploaded_at = wEnvLocal.now) ∧
    ((getDocuments wDBfees "CS/001/2021").Perm
       (wDBfees.student_documents.filter
         (fun d => d.registration_number == "CS/001/2021")) ∧
     List.Sorted laterUploaded (getDocuments wDBfees "CS/001/2021") ∧
     (∀ h t, getDocuments wDBfees "CS/001/2021" = h :: t →
       ∀ d ∈ getDocuments wDBfees "CS/001/2021", d.uploaded_at ≤ h.uploaded_at)) :=
  ⟨upload_appends_and_latest_first.1 wEnvLocal "CS/001/2021" wFile "results"
     wDBbase _ _ rfl,
   upload_appends_and_latest_first.2 wDBfees "CS/001/2021"⟩

/-- C2 (evaluation at the failing input): when the `student_documents`
insert raises (the way a real insert failure surfaces), `handleFileUpload`
re-raises the error without attempting any blob cleanup, leaving the
just-stored local blob orphaned; only the dead `zero rows returned` branch
performs cleanup. -/
theorem upload_insert_raises_leaves_orphan :
    (handleFileUpload
      { supabaseConfigured := false, remoteFails := false, localWriteFails := false,
        insertOutcome := .raises "connection terminated", cleanupFails := false,
        now := 5 }
      "CS/001/2021" wFile "exam-card" wDBbase).1 =
      .error "connection terminated" ∧
    (handleFileUpload
      { supabaseConfigured := false, remoteFails := false, localWriteFails := false,
        insertOutcome := .raises "connection terminated", cleanupFails := false,
        now := 5 }
      "CS/001/2021" wFile "exam-card" wDBbase).2 =
      { db := wDBbase,
        storedBlob := some ("local",
          "exam-card" ++ "/" ++ "CS/001/2021" ++ "_" ++ toString (5 : Nat) ++ "." ++
            fileExtension wFile),
        cleanupAttempted := false } :=
  ⟨rfl, rfl⟩

/-- C8: when the student exists and the student's fee record carries a
strictly positive balance, exam-card retrieval answers the fee-blocked
(403) response carrying that balance, before any document lookup, so no
file URL is returned no matter which documents exist. -/
theorem examCard_feeGate (db : DB) (sid : Nat) (s : Student) (f : FeeRecord)
    (hs : lookupStudentById db sid = some s)
    (hf : (db.fees.filter (fun fr => fr.student_id == sid)).head? = some f)
    (hbal : 0 < f.fee_balance) :
    getExamCard db sid = .feeBlocked f.fee_balance := by
  unfold getExamCard
  rw [hs]
  dsimp only
  rw [hf]
  dsimp only
  rw [if_pos hbal]

/-- Witness for C8: the fee gate fires although an exam-card document
exists for the student. -/
theorem examCard_feeGate_witness :
    getExamCard wDBfees 1 = .feeBlocked 12500 :=
  examCard_feeGate wDBfees 1 wS { student_id := 1, fee_balance := 12500 }
    (by decide) (by decide) (by decide)

theorem examCardUpload_ok_of_handle (env : UploadEnv) (reg : String)
    (file : UploadedFile) (db : DB) (data : UploadData) (eff : UploadEffects)
    (hbeq : (reg == "") = false)
    (h1 : ¬ (file.size > 10 * 1024 * 1024)) (h2 : ¬ (file.size < 1024))
    (hH : handleFileUpload env reg.trim file "exam-card" db = (.ok data, eff)) :
    examCardUpload env (some reg) (some file) db = (.created data, eff) := by
  simp only [examCardUpload, hbeq, Bool.false_eq_true, if_false, h1, h2, hH]

/-- C10: the exam-card upload endpoint performs no student lookup: for a
non-empty registration number (trimmed before persisting), a file within the
size bounds, and working storage plus insert, the upload succeeds and
appends a `student_documents` row keyed by the trimmed registration number
even when no `students` row carries that registration number, and the
`students` table is untouched. -/
theorem examCardUpload_no_student (env : UploadEnv) (reg : String)
    (file : UploadedFile) (db : DB)
    (hreg : reg ≠ "")
    (hmin : 1024 ≤ file.size) (hmax : file.size ≤ 10 * 1024 * 1024)
    (hins : env.insertOutcome = .ok) (hlocal : env.localWriteFails = false)
    (_hnost : ∀ s ∈ db.students, s.registration_number ≠ reg.trim) :
    ∃ data eff,
      examCardUpload env (some reg) (some file) db = (.created data, eff) ∧
      data.registrationNumber = reg.trim ∧
      (∃ d, eff.db.student_documents = db.student_documents ++ [d] ∧
        d.registration_number = reg.trim ∧ d.document_type = "exam-card") ∧
      eff.db.students = db.students := by
  have hbeq : (reg == "") = false := beq_eq_false_iff_ne.mpr hreg
  have h1 : ¬ (file.size > 10 * 1024 * 1024) := by omega
  have h2 : ¬ (file.size < 1024) := by omega
  by_cases hcond : (env.supabaseConfigured && !env.remoteFails) = true
  · exact ⟨_, _, examCardUpload_ok_of_handle env reg file db _ _ hbeq h1 h2
      (handleFileUpload_supabase_shape env reg.trim file "exam-card" db hcond hins),
      rfl, ⟨_, rfl, rfl, rfl⟩, rfl⟩
  · have hcondF : (env.supabaseConfigured && !env.remoteFails) = false :=
      Bool.eq_false_iff.mpr hcond
    exact ⟨_, _, examCardUpload_ok_of_handle env reg file db _ _ hbeq h1 h2
      (handleFileUpload_local_shape env reg.trim file "exam-card" db hcondF hlocal hins),
      rfl, ⟨_, rfl, rfl, rfl⟩, rfl⟩

/-- Witness for C10: uploading for a registration number that matches no
student. -/
theorem examCardUpload_no_student_witness :
    ∃ data eff,
      examCardUpload wEnvLocal (some " KX/999/2030 ") (some wFile) wDBempty =
        (.created data, eff) ∧
      data.registrationNumber = (" KX/999/2030 ").trim ∧
      (∃ d, eff.db.student_documents = wDBempty.student_documents ++ [d] ∧
        d.registration_number = (" KX/999/2030 ").trim ∧
        d.document_type = "exam-card") ∧
      eff.db.students = wDBempty.students :=
  examCardUpload_no_student wEnvLocal " KX/999/2030 " wFile wDBempty
    (by decide) (by decide) (by decide) rfl rfl
    (fun s hs => absurd hs (List.not_mem_nil s))

end StudentPortal
